import Mathlib

/-! Verification of the SwissLakeDir expert-directory component
(`src/components/KeywordSearchApp2.tsx`).

JavaScript strings are embedded as `List Char`; the string operations used by
the component (`toLowerCase`, `trim`, `includes`, `startsWith`) become the
corresponding list functions.  The React component state becomes an explicit
`AppState` record, and the two event handlers (`handleSearch`,
`handleSearchChange`) become state transformers.  The asynchronous `loadData`
effect becomes a function from the possible outcomes of the fetch/parse
pipeline to the resulting state.
-/

namespace SwissLakeDir

/-- A JavaScript string, embedded as a list of characters. -/
abbrev Str := List Char

/-- Embed a Lean string literal into the `Str` model. -/
def str (s : String) : Str := s.data

/-- The whitespace test used by the model of `String.prototype.trim`
(space, tab, line feed, carriage return). -/
def isSpace (c : Char) : Bool :=
  c.toNat = 32 || c.toNat = 9 || c.toNat = 10 || c.toNat = 13

/-- Model of `s.trim()`: drop whitespace from both ends. -/
def jsTrim (s : Str) : Str :=
  ((s.dropWhile isSpace).reverse.dropWhile isSpace).reverse

/-- Model of `s.toLowerCase()` (per-character basic-latin lowering). -/
def jsToLower (s : Str) : Str := s.map Char.toLower

/-- Model of `s.includes(sub)`: substring test. -/
def jsIncludes (s sub : Str) : Bool := decide (List.IsInfix sub s)

/-- Model of `s.startsWith(pre)`. -/
def jsStartsWith (s pre : Str) : Bool := pre.isPrefixOf s

/-- The `Person` interface of the component: five string fields, never
missing (absent source columns are mapped to the empty string). -/
structure Person where
  name : Str
  affiliation : Str
  keyword1 : Str
  keyword2 : Str
  keyword3 : Str
deriving DecidableEq

/-- The `DirectoryStats` interface: the three summary counts. -/
structure DirectoryStats where
  expertCount : Nat
  expertiseCount : Nat
  affiliationCount : Nat
deriving DecidableEq

/-- The match predicate of `handleSearch`: the normalized query occurs in one
of the five lowercased fields (`person.name.toLowerCase().includes(q) || ...`). -/
def matchesPerson (q : Str) (person : Person) : Bool :=
  jsIncludes (jsToLower person.name) q ||
  jsIncludes (jsToLower person.affiliation) q ||
  jsIncludes (jsToLower person.keyword1) q ||
  jsIncludes (jsToLower person.keyword2) q ||
  jsIncludes (jsToLower person.keyword3) q

/-- The search operation of `handleSearch`, as a pure function from the
search term and the record list to `(searchResults, searchPerformed)`:
an empty trimmed term yields `([], false)`; otherwise the records are
filtered by `matchesPerson` against `searchTerm.toLowerCase().trim()`. -/
def handleSearch (searchTerm : Str) (data : List Person) : List Person × Bool :=
  if (jsTrim searchTerm).isEmpty then ([], false)
  else
    let normalizedSearchTerm := jsTrim (jsToLower searchTerm)
    (data.filter (fun person => matchesPerson normalizedSearchTerm person), true)

/-- Record 1 of the hardcoded fallback dataset. -/
def johnSmith : Person :=
  ⟨str "John Smith", str "University of Technology",
   str "machine learning", str "neural networks", str "computer vision"⟩

/-- Record 2 of the hardcoded fallback dataset. -/
def mariaGarcia : Person :=
  ⟨str "Maria Garcia", str "Research Institute",
   str "data mining", str "statistics", str "big data"⟩

/-- Record 3 of the hardcoded fallback dataset. -/
def weiZhang : Person :=
  ⟨str "Wei Zhang", str "Tech Solutions Inc",
   str "cloud computing", str "distributed systems", str "scalability"⟩

/-- Record 4 of the hardcoded fallback dataset. -/
def aishaJohnson : Person :=
  ⟨str "Aisha Johnson", str "Global Analytics",
   str "data visualization", str "business intelligence", str "machine learning"⟩

/-- Record 5 of the hardcoded fallback dataset. -/
def carlosRodriguez : Person :=
  ⟨str "Carlos Rodriguez", str "University of Science",
   str "robotics", str "control systems", str "automation"⟩

/-- Record 6 of the hardcoded fallback dataset. -/
def fatimaAli : Person :=
  ⟨str "Fatima Ali", str "Health Research Center",
   str "bioinformatics", str "genomics", str "medical imaging"⟩

/-- Record 7 of the hardcoded fallback dataset. -/
def davidWilson : Person :=
  ⟨str "David Wilson", str "Innovation Labs",
   str "virtual reality", str "augmented reality", str "human-computer interaction"⟩

/-- Record 8 of the hardcoded fallback dataset. -/
def emilyChen : Person :=
  ⟨str "Emily Chen", str "Tech Solutions Inc",
   str "web development", str "user experience", str "accessibility"⟩

/-- Record 9 of the hardcoded fallback dataset. -/
def jamesBrown : Person :=
  ⟨str "James Brown", str "University of Technology",
   str "artificial intelligence", str "machine learning", str "deep learning"⟩

/-- Record 10 of the hardcoded fallback dataset. -/
def sophiaKumar : Person :=
  ⟨str "Sophia Kumar", str "Data Science Center",
   str "statistics", str "natural language processing", str "sentiment analysis"⟩

/-- The `sampleData` fallback dataset of `loadData`: the 10 hardcoded records,
in source order. -/
def sampleData : List Person :=
  [johnSmith, mariaGarcia, weiZhang, aishaJohnson, carlosRodriguez,
   fatimaAli, davidWilson, emilyChen, jamesBrown, sophiaKumar]

/-- The stats the fallback branch hardcodes
(`setStats({ expertCount: 10, expertiseCount: 24, affiliationCount: 7 })`). -/
def fallbackStats : DirectoryStats :=
  { expertCount := 10, expertiseCount := 24, affiliationCount := 7 }

/-- The statistics computation of the success branch of `loadData`:
distinct names, distinct non-empty keywords over the three keyword columns
(collected column by column, as the source does), distinct affiliations;
`new Set(xs).size` is embedded as `xs.dedup.length`. -/
def computeStats (personData : List Person) : DirectoryStats :=
  { expertCount := (personData.map Person.name).dedup.length,
    expertiseCount :=
      (((personData.map Person.keyword1) ++ (personData.map Person.keyword2) ++
        (personData.map Person.keyword3)).filter (fun keyword => !keyword.isEmpty)).dedup.length,
    affiliationCount := (personData.map Person.affiliation).dedup.length }

/-- The React state of the component: the six `useState` cells together with
the derived stats cell. -/
structure AppState where
  data : List Person
  isLoading : Bool
  searchTerm : Str
  searchResults : List Person
  error : Option Str
  searchPerformed : Bool
  stats : DirectoryStats
deriving DecidableEq

/-- The initial state passed to the `useState` hooks. -/
def initialState : AppState :=
  { data := [], isLoading := true, searchTerm := [], searchResults := [],
    error := none, searchPerformed := false,
    stats := { expertCount := 0, expertiseCount := 0, affiliationCount := 0 } }

/-- The `handleSearch` click/Enter handler as a state transformer: it reads
`searchTerm` and `data` and writes `searchResults` and `searchPerformed`. -/
def stepSearch (s : AppState) : AppState :=
  let r := handleSearch s.searchTerm s.data
  { s with searchResults := r.1, searchPerformed := r.2 }

/-- The `handleSearchChange` input handler: store the new input value, and
clear the results and the performed flag exactly when the value is `""`. -/
def handleSearchChange (value : Str) (s : AppState) : AppState :=
  let s1 := { s with searchTerm := value }
  if value.isEmpty then { s1 with searchResults := [], searchPerformed := false }
  else s1

/-- A row object delivered by the CSV parser in header mode: an association
list from header names to cell values. -/
abbrev Row := List (Str × Str)

/-- The field access `row.name || ''` of the mapping step in `loadData`:
look the column up by header name, defaulting to the empty string when the
column is absent (and an empty cell is already the empty string). -/
def rowGet (row : Row) (key : Str) : Str := (List.lookup key row).getD []

/-- The mapping step of the `complete` callback of `loadData`: build a
`Person` from a parsed row, every field defaulting to `""`. -/
def rowToPerson (row : Row) : Person :=
  { name := rowGet row (str "name"),
    affiliation := rowGet row (str "affiliation"),
    keyword1 := rowGet row (str "keyword1"),
    keyword2 := rowGet row (str "keyword2"),
    keyword3 := rowGet row (str "keyword3") }

/-- The `'<!DOCTYPE html>'` sentinel checked before parsing. -/
def doctype : Str := str "<!DOCTYPE html>"

/-- The possible outcomes of the fetch step of `loadData`, as seen by the
component: the fetch throws (network error), the response is not ok
(`!response.ok` throws an `HTTP error!` message), or a body text arrives
together with what `Papa.parse` delivers for it — either the parsed rows
(`complete` callback) or a parse error (`error` callback). -/
inductive LoadOutcome where
  | fetchError (msg : Str)
  | httpError (status : Nat)
  | body (csvText : Str) (parseResult : Except Str (List Row))

/-- The catch block of `loadData`: substitute the 10 fallback records, the
hardcoded fallback stats, and an advisory message built from the thrown
error's message. -/
def catchFallback (msg : Str) (s : AppState) : AppState :=
  { s with data := sampleData, stats := fallbackStats,
           error := some (str "Note: Using sample data. Couldn\x27t load CSV: " ++ msg),
           isLoading := false }

/-- The `loadData` effect, from the outcome of the fetch/parse pipeline to
the state it leaves behind (starting from `initialState`):
a thrown fetch error, a non-ok HTTP status, and an HTML body all reach the
catch block and fall back to `sampleData`; a parsed body stores the mapped
records and the computed stats; a parse error only stores an error message
(the `error` callback neither throws nor substitutes fallback data). -/
def loadData : LoadOutcome → AppState
  | .fetchError msg => catchFallback msg initialState
  | .httpError status =>
      catchFallback (str "HTTP error! Status: " ++ str (toString status)) initialState
  | .body csvText parseResult =>
      if jsStartsWith (jsTrim csvText) doctype then
        catchFallback (str "Received HTML instead of CSV data. Check the file path.")
          initialState
      else
        match parseResult with
        | .ok rows =>
            let personData := rows.map rowToPerson
            { initialState with data := personData, stats := computeStats personData,
                                isLoading := false }
        | .error _ =>
            { initialState with
                error := some (str "Failed to parse CSV data. Please check the file format."),
                isLoading := false }

/-- The line feed character separating CSV rows. -/
def lineFeed : Char := '\n'

/-- The comma character separating CSV cells. -/
def commaChar : Char := ','

/-- Modelled from the spec: the non-empty lines of the raw CSV text.  The
external `papaparse` library (`Papa.parse` with `header: true,
skipEmptyLines: true`) is not part of this repository; per the spec the
input is split into lines and empty lines are skipped. -/
def csvLines (text : Str) : List Str :=
  (text.splitOn lineFeed).filter (fun line => !line.isEmpty)

/-- The header fields of the raw CSV text: the cells of its first
non-empty line. -/
def csvHeaderFields (text : Str) : List Str :=
  ((csvLines text).headD []).splitOn commaChar

/-- The data lines of the raw CSV text: every non-empty line after the
header line. -/
def csvDataLines (text : Str) : List Str := (csvLines text).tail

/-- Modelled from the spec: the row objects `Papa.parse` delivers to the
`complete` callback for a tabular text, the external library not being part
of this repository.  The first non-empty line is the header row; every
later non-empty line becomes one row object, in source order, pairing each
header name with the cell at its position (cells beyond the shorter of the
two lists are dropped, so a missing trailing column is simply absent from
the row object). -/
def papaParse (text : Str) : List Row :=
  match csvLines text with
  | [] => []
  | header :: rows =>
      let hs := header.splitOn commaChar
      rows.map (fun row => hs.zip (row.splitOn commaChar))

/-- The Record Parser of the spec: the parsed rows of the text, mapped to
`Person` records by the mapping step of `loadData`. -/
def recordParser (text : Str) : List Person := (papaParse text).map rowToPerson

/-- The match condition of the search, at the propositional level: the
needle is a substring of at least one of the five lowercased fields. -/
def matchProp (q : Str) (person : Person) : Prop :=
  List.IsInfix q (jsToLower person.name) ∨
  List.IsInfix q (jsToLower person.affiliation) ∨
  List.IsInfix q (jsToLower person.keyword1) ∨
  List.IsInfix q (jsToLower person.keyword2) ∨
  List.IsInfix q (jsToLower person.keyword3)

theorem matchesPerson_iff (q : Str) (person : Person) :
    matchesPerson q person = true ↔ matchProp q person := by
  simp [matchesPerson, jsIncludes, matchProp, Bool.or_eq_true, decide_eq_true_eq, or_assoc]

theorem toNat_charOfNat_valid {n : Nat} (h : n.isValidChar) : (Char.ofNat n).toNat = n := by
  unfold Char.ofNat
  rw [dif_pos h]
  rfl

theorem isSpace_toLower (c : Char) : isSpace (Char.toLower c) = isSpace c := by
  simp only [Char.toLower]
  by_cases h : c.toNat ≥ 65 ∧ c.toNat ≤ 90
  · rw [if_pos h]
    have hv : (c.toNat + 32).isValidChar := Or.inl (by omega)
    have ht : (Char.ofNat (c.toNat + 32)).toNat = c.toNat + 32 := toNat_charOfNat_valid hv
    have h1 : isSpace (Char.ofNat (c.toNat + 32)) = false := by
      simp only [isSpace, ht, Bool.or_eq_false_iff, decide_eq_false_iff_not]
      omega
    have h2 : isSpace c = false := by
      simp only [isSpace, Bool.or_eq_false_iff, decide_eq_false_iff_not]
      omega
    rw [h1, h2]
  · rw [if_neg h]

theorem isSpace_comp_toLower : isSpace ∘ Char.toLower = isSpace :=
  funext fun c => isSpace_toLower c

/-- Lowercasing and trimming commute, so the code's
`searchTerm.toLowerCase().trim()` equals the spec's lowercased trimmed
query. -/
theorem jsTrim_jsToLower (s : Str) : jsTrim (jsToLower s) = jsToLower (jsTrim s) := by
  unfold jsTrim jsToLower
  rw [List.dropWhile_map, isSpace_comp_toLower, ← List.map_reverse,
    List.dropWhile_map, isSpace_comp_toLower, ← List.map_reverse]

theorem handleSearch_eq_filter (Q : Str) (R : List Person) (hQ : jsTrim Q ≠ []) :
    handleSearch Q R =
      (R.filter (fun person => matchesPerson (jsToLower (jsTrim Q)) person), true) := by
  have hne : (jsTrim Q).isEmpty = false := List.isEmpty_eq_false.mpr hQ
  simp [handleSearch, hne, jsTrim_jsToLower]

/-- C1: for a query with non-empty trimmed form, the search returns exactly
the records having the lowercased trimmed query as a substring of one of the
five lowercased fields, excludes every record matching none of them, and is
a sublist of the input (original relative order preserved). -/
theorem search_exact_partition (Q : Str) (R : List Person) (hQ : jsTrim Q ≠ []) :
    (handleSearch Q R).2 = true ∧
    List.Sublist (handleSearch Q R).1 R ∧
    (∀ p ∈ (handleSearch Q R).1, matchProp (jsToLower (jsTrim Q)) p) ∧
    (∀ p ∈ R, matchProp (jsToLower (jsTrim Q)) p → p ∈ (handleSearch Q R).1) ∧
    (∀ p ∈ R, ¬ matchProp (jsToLower (jsTrim Q)) p → p ∉ (handleSearch Q R).1) := by
  rw [handleSearch_eq_filter Q R hQ]
  refine ⟨rfl, List.filter_sublist R, ?_, ?_, ?_⟩
  · intro p hp
    exact (matchesPerson_iff _ p).mp (List.of_mem_filter hp)
  · intro p hp hm
    exact List.mem_filter.mpr ⟨hp, (matchesPerson_iff _ p).mpr hm⟩
  · intro p _ hm hmem
    exact hm ((matchesPerson_iff _ p).mp (List.of_mem_filter hmem))

/-- Witness for C1 at the query `" Machine Learning "` over the fallback
records. -/
theorem search_exact_partition_witness :
    jsTrim (str " Machine Learning ") ≠ [] ∧
    ((handleSearch (str " Machine Learning ") sampleData).2 = true ∧
     List.Sublist (handleSearch (str " Machine Learning ") sampleData).1 sampleData ∧
     (∀ p ∈ (handleSearch (str " Machine Learning ") sampleData).1,
        matchProp (jsToLower (jsTrim (str " Machine Learning "))) p) ∧
     (∀ p ∈ sampleData, matchProp (jsToLower (jsTrim (str " Machine Learning "))) p →
        p ∈ (handleSearch (str " Machine Learning ") sampleData).1) ∧
     (∀ p ∈ sampleData, ¬ matchProp (jsToLower (jsTrim (str " Machine Learning "))) p →
        p ∉ (handleSearch (str " Machine Learning ") sampleData).1)) :=
  ⟨by decide, search_exact_partition (str " Machine Learning ") sampleData (by decide)⟩

/-- C4: a query whose trimmed form is empty returns no results with the
performed flag false, and the search handler never touches the error
channel. -/
theorem empty_query_clears (Q : Str) (R : List Person) (h : jsTrim Q = []) :
    handleSearch Q R = ([], false) ∧ (∀ s : AppState, (stepSearch s).error = s.error) := by
  constructor
  · simp [handleSearch, h]
  · intro s
    rfl

/-- Witness for C4 at the whitespace-only query `"   "`. -/
theorem empty_query_clears_witness :
    jsTrim (str "   ") = [] ∧
    (handleSearch (str "   ") sampleData = ([], false) ∧
     (∀ s : AppState, (stepSearch s).error = s.error)) :=
  ⟨by decide, empty_query_clears (str "   ") sampleData (by decide)⟩

/-- C7: the query `"University of Technology"` over the fallback records
returns exactly John Smith and James Brown, each matching through the
affiliation field. -/
theorem affiliation_query_example :
    handleSearch (str "University of Technology") sampleData =
      ([johnSmith, jamesBrown], true) ∧
    List.IsInfix (jsToLower (jsTrim (str "University of Technology")))
      (jsToLower johnSmith.affiliation) ∧
    List.IsInfix (jsToLower (jsTrim (str "University of Technology")))
      (jsToLower jamesBrown.affiliation) :=
  ⟨by decide, by decide, by decide⟩

/-- C8: the query `"machine learning"` over the fallback records returns
exactly John Smith, Aisha Johnson and James Brown in that order with the
performed flag true, each carrying `"machine learning"` in a keyword
field. -/
theorem machine_learning_query_example :
    handleSearch (str "machine learning") sampleData =
      ([johnSmith, aishaJohnson, jamesBrown], true) ∧
    List.IsInfix (jsToLower (jsTrim (str "machine learning")))
      (jsToLower johnSmith.keyword1) ∧
    List.IsInfix (jsToLower (jsTrim (str "machine learning")))
      (jsToLower aishaJohnson.keyword3) ∧
    List.IsInfix (jsToLower (jsTrim (str "machine learning")))
      (jsToLower jamesBrown.keyword2) :=
  ⟨by decide, by decide, by decide, by decide⟩

/-- C9: the search is a pure deterministic function of the query and the
records: it never changes the record list or the query, running it twice is
the same as running it once, and its output depends only on the query and
the records. -/
theorem search_pure_idempotent (s t : AppState)
    (hterm : s.searchTerm = t.searchTerm) (hdata : s.data = t.data) :
    stepSearch (stepSearch s) = stepSearch s ∧
    (stepSearch s).data = s.data ∧
    (stepSearch s).searchTerm = s.searchTerm ∧
    (stepSearch s).searchResults = (stepSearch t).searchResults ∧
    (stepSearch s).searchPerformed = (stepSearch t).searchPerformed := by
  refine ⟨rfl, rfl, rfl, ?_, ?_⟩
  · simp only [stepSearch, hterm, hdata]
  · simp only [stepSearch, hterm, hdata]

/-- Witness for C9 at the initial state. -/
theorem search_pure_idempotent_witness :
    stepSearch (stepSearch initialState) = stepSearch initialState ∧
    (stepSearch initialState).data = initialState.data ∧
    (stepSearch initialState).searchTerm = initialState.searchTerm ∧
    (stepSearch initialState).searchResults = (stepSearch initialState).searchResults ∧
    (stepSearch initialState).searchPerformed = (stepSearch initialState).searchPerformed :=
  search_pure_idempotent initialState initialState rfl rfl

/-- C10: the input-change handler stores the new value, clears the results
and the performed flag when the new value is exactly the empty string, and
leaves both untouched for every non-empty value (in particular for a
whitespace-only one). -/
theorem input_change_clears_iff_empty (value : Str) (s : AppState) :
    (handleSearchChange value s).searchTerm = value ∧
    (value = [] → (handleSearchChange value s).searchResults = [] ∧
                  (handleSearchChange value s).searchPerformed = false) ∧
    (value ≠ [] → (handleSearchChange value s).searchResults = s.searchResults ∧
                  (handleSearchChange value s).searchPerformed = s.searchPerformed) := by
  by_cases h : value = []
  · subst h
    simp [handleSearchChange]
  · have hne : value.isEmpty = false := List.isEmpty_eq_false.mpr h
    simp [handleSearchChange, hne, h]

/-- Witness for C10: the whitespace-only value `" "` leaves previous results
untouched. -/
theorem input_change_clears_iff_empty_witness :
    str " " ≠ [] ∧
    (handleSearchChange (str " ")
        { initialState with searchResults := sampleData, searchPerformed := true }).searchResults =
      ({ initialState with searchResults := sampleData, searchPerformed := true } : AppState).searchResults ∧
    (handleSearchChange (str " ")
        { initialState with searchResults := sampleData, searchPerformed := true }).searchPerformed =
      ({ initialState with searchResults := sampleData, searchPerformed := true } : AppState).searchPerformed :=
  ⟨by decide,
   ((input_change_clears_iff_empty (str " ")
      { initialState with searchResults := sampleData, searchPerformed := true }).2.2 (by decide)).1,
   ((input_change_clears_iff_empty (str " ")
      { initialState with searchResults := sampleData, searchPerformed := true }).2.2 (by decide)).2⟩

theorem bnot_isEmpty_eq (l : Str) : (!l.isEmpty) = decide (l ≠ []) := by
  cases l <;> simp

/-- C2 counterexample: a parse error does not reach the fallback path — the
state keeps its empty record list (with an advisory message), instead of the
10 fallback records. -/
theorem parse_error_no_fallback_cex :
    (loadData (.body (str "not,really,csv") (.error (str "Parse error")))).error ≠ none ∧
    (loadData (.body (str "not,really,csv") (.error (str "Parse error")))).data = [] ∧
    sampleData.length = 10 ∧
    (loadData (.body (str "not,really,csv") (.error (str "Parse error")))).data ≠ sampleData :=
  ⟨by decide, by decide, by decide, by decide⟩

/-- C2 (amended): a thrown network error, a non-ok HTTP status, and an HTML
payload all resolve to exactly the fallback records with a non-null advisory
message; a parse error also resolves with a non-null advisory message, but
keeps the empty record list instead of substituting the fallback set. -/
theorem load_failure_fallback_cases (msg : Str) (status : Nat)
    (htmlText plainText e : Str) (pr : Except Str (List Row))
    (hHtml : jsStartsWith (jsTrim htmlText) doctype = true)
    (hPlain : jsStartsWith (jsTrim plainText) doctype = false) :
    (loadData (.fetchError msg)).data = sampleData ∧
    (loadData (.fetchError msg)).error ≠ none ∧
    (loadData (.fetchError msg)).isLoading = false ∧
    (loadData (.fetchError msg)).stats = fallbackStats ∧
    (loadData (.httpError status)).data = sampleData ∧
    (loadData (.httpError status)).error ≠ none ∧
    (loadData (.httpError status)).isLoading = false ∧
    (loadData (.body htmlText pr)).data = sampleData ∧
    (loadData (.body htmlText pr)).error ≠ none ∧
    (loadData (.body plainText (.error e))).data = [] ∧
    (loadData (.body plainText (.error e))).error ≠ none ∧
    (loadData (.body plainText (.error e))).isLoading = false := by
  refine ⟨rfl, by simp [loadData, catchFallback], rfl, rfl, rfl,
          by simp [loadData, catchFallback], rfl, ?_, ?_, ?_, ?_, ?_⟩
  · simp [loadData, hHtml, catchFallback]
  · simp [loadData, hHtml, catchFallback]
  · simp [loadData, hPlain, initialState]
  · simp [loadData, hPlain, initialState]
  · simp [loadData, hPlain, initialState]

/-- Witness for C2 (amended) at a concrete network error, status 404, HTML
payload and malformed plain payload. -/
theorem load_failure_fallback_cases_witness :
    (jsStartsWith (jsTrim (str "  <!DOCTYPE html><p>404</p>")) doctype = true ∧
     jsStartsWith (jsTrim (str "name,affiliation")) doctype = false) ∧
    ((loadData (.fetchError (str "Failed to fetch"))).data = sampleData ∧
     (loadData (.fetchError (str "Failed to fetch"))).error ≠ none ∧
     (loadData (.fetchError (str "Failed to fetch"))).isLoading = false ∧
     (loadData (.fetchError (str "Failed to fetch"))).stats = fallbackStats ∧
     (loadData (.httpError 404)).data = sampleData ∧
     (loadData (.httpError 404)).error ≠ none ∧
     (loadData (.httpError 404)).isLoading = false ∧
     (loadData (.body (str "  <!DOCTYPE html><p>404</p>") (.ok []))).data = sampleData ∧
     (loadData (.body (str "  <!DOCTYPE html><p>404</p>") (.ok []))).error ≠ none ∧
     (loadData (.body (str "name,affiliation") (.error (str "bad")))).data = [] ∧
     (loadData (.body (str "name,affiliation") (.error (str "bad")))).error ≠ none ∧
     (loadData (.body (str "name,affiliation") (.error (str "bad")))).isLoading = false) :=
  ⟨⟨by decide, by decide⟩,
   load_failure_fallback_cases (str "Failed to fetch") 404
     (str "  <!DOCTYPE html><p>404</p>") (str "name,affiliation") (str "bad")
     (.ok []) (by decide) (by decide)⟩

/-- C3: the fallback branch hardcodes `expertiseCount = 24` and
`affiliationCount = 7`, but the distinct counts over the 10 fallback records
are 27 non-empty keywords and 8 affiliations (the `expertCount = 10` part is
right); the very computation the success branch uses disagrees with the
hardcoded values. -/
theorem fallback_stats_mismatch :
    (loadData (.fetchError (str "Failed to fetch"))).stats = fallbackStats ∧
    fallbackStats.expertCount = 10 ∧
    (computeStats sampleData).expertCount = 10 ∧
    (computeStats sampleData).affiliationCount = 8 ∧
    (computeStats sampleData).expertiseCount = 27 ∧
    fallbackStats.affiliationCount = 7 ∧
    fallbackStats.expertiseCount = 24 ∧
    fallbackStats.affiliationCount ≠ (computeStats sampleData).affiliationCount ∧
    fallbackStats.expertiseCount ≠ (computeStats sampleData).expertiseCount :=
  ⟨rfl, rfl, by decide, by decide, by decide, rfl, rfl, by decide, by decide⟩

/-- C5: after a successful load the stored stats are the distinct-name,
distinct-affiliation and distinct non-empty keyword counts of the stored
record set, the advisory error stays null, and a search never changes the
stats. -/
theorem stats_from_loaded_records (csvText : Str) (rows : List Row)
    (h : jsStartsWith (jsTrim csvText) doctype = false) :
    (loadData (.body csvText (.ok rows))).stats.expertCount =
      ((loadData (.body csvText (.ok rows))).data.map Person.name).toFinset.card ∧
    (loadData (.body csvText (.ok rows))).stats.affiliationCount =
      ((loadData (.body csvText (.ok rows))).data.map Person.affiliation).toFinset.card ∧
    (loadData (.body csvText (.ok rows))).stats.expertiseCount =
      (((loadData (.body csvText (.ok rows))).data.map Person.keyword1 ++
        (loadData (.body csvText (.ok rows))).data.map Person.keyword2 ++
        (loadData (.body csvText (.ok rows))).data.map Person.keyword3).filter
          (fun keyword => decide (keyword ≠ []))).toFinset.card ∧
    (loadData (.body csvText (.ok rows))).error = none ∧
    (∀ s : AppState, (stepSearch s).stats = s.stats) := by
  have hld : loadData (.body csvText (.ok rows)) =
      { initialState with data := rows.map rowToPerson,
                          stats := computeStats (rows.map rowToPerson),
                          isLoading := false } := by
    simp [loadData, h]
  rw [hld]
  refine ⟨?_, ?_, ?_, rfl, fun s => rfl⟩
  · simp [computeStats, List.card_toFinset]
  · simp [computeStats, List.card_toFinset]
  · simp only [computeStats]
    rw [List.card_toFinset]
    have hpred : (fun keyword : Str => !keyword.isEmpty) =
        fun keyword => decide (keyword ≠ []) := funext bnot_isEmpty_eq
    rw [hpred]

/-- Witness for C5 at a one-row parsed payload. -/
theorem stats_from_loaded_records_witness :
    jsStartsWith (jsTrim (str "name,keyword1")) doctype = false ∧
    ((loadData (.body (str "name,keyword1")
        (.ok [[(str "name", str "Ana"), (str "keyword1", str "lakes")]]))).stats.expertCount =
      ((loadData (.body (str "name,keyword1")
        (.ok [[(str "name", str "Ana"), (str "keyword1", str "lakes")]]))).data.map
          Person.name).toFinset.card ∧
     (loadData (.body (str "name,keyword1")
        (.ok [[(str "name", str "Ana"), (str "keyword1", str "lakes")]]))).stats.affiliationCount =
      ((loadData (.body (str "name,keyword1")
        (.ok [[(str "name", str "Ana"), (str "keyword1", str "lakes")]]))).data.map
          Person.affiliation).toFinset.card ∧
     (loadData (.body (str "name,keyword1")
        (.ok [[(str "name", str "Ana"), (str "keyword1", str "lakes")]]))).stats.expertiseCount =
      (((loadData (.body (str "name,keyword1")
          (.ok [[(str "name", str "Ana"), (str "keyword1", str "lakes")]]))).data.map
            Person.keyword1 ++
        (loadData (.body (str "name,keyword1")
          (.ok [[(str "name", str "Ana"), (str "keyword1", str "lakes")]]))).data.map
            Person.keyword2 ++
        (loadData (.body (str "name,keyword1")
          (.ok [[(str "name", str "Ana"), (str "keyword1", str "lakes")]]))).data.map
            Person.keyword3).filter
          (fun keyword => decide (keyword ≠ []))).toFinset.card ∧
     (loadData (.body (str "name,keyword1")
        (.ok [[(str "name", str "Ana"), (str "keyword1", str "lakes")]]))).error = none ∧
     (∀ s : AppState, (stepSearch s).stats = s.stats)) :=
  ⟨by decide,
   stats_from_loaded_records (str "name,keyword1")
     [[(str "name", str "Ana"), (str "keyword1", str "lakes")]] (by decide)⟩

theorem lookup_zip_of_not_mem {hs vs : List Str} {k : Str} (h : k ∉ hs) :
    List.lookup k (hs.zip vs) = none := by
  induction hs generalizing vs with
  | nil => simp
  | cons a hs ih =>
    cases vs with
    | nil => simp
    | cons v vs =>
      have hka : k ≠ a := fun hk => h (hk ▸ List.mem_cons_self a hs)
      have hne : (k == a) = false := beq_eq_false_iff_ne.mpr hka
      rw [List.zip_cons_cons, List.lookup_cons, hne]
      exact ih (fun hm => h (List.mem_cons_of_mem a hm))

/-- C6: the Record Parser produces exactly one `Person` per non-empty data
row, in source order, mapping cells through the header fields by name; a
column absent from the header yields the empty string for the corresponding
field of every produced record. -/
theorem parser_row_mapping (text : Str) :
    recordParser text =
      (csvDataLines text).map
        (fun line => rowToPerson ((csvHeaderFields text).zip (line.splitOn commaChar))) ∧
    (recordParser text).length = (csvDataLines text).length ∧
    (str "name" ∉ csvHeaderFields text → ∀ p ∈ recordParser text, p.name = []) ∧
    (str "affiliation" ∉ csvHeaderFields text → ∀ p ∈ recordParser text, p.affiliation = []) ∧
    (str "keyword1" ∉ csvHeaderFields text → ∀ p ∈ recordParser text, p.keyword1 = []) ∧
    (str "keyword2" ∉ csvHeaderFields text → ∀ p ∈ recordParser text, p.keyword2 = []) ∧
    (str "keyword3" ∉ csvHeaderFields text → ∀ p ∈ recordParser text, p.keyword3 = []) := by
  have hmain : recordParser text =
      (csvDataLines text).map
        (fun line => rowToPerson ((csvHeaderFields text).zip (line.splitOn commaChar))) := by
    unfold recordParser papaParse csvDataLines csvHeaderFields
    cases h : csvLines text with
    | nil => simp
    | cons header rows => simp [List.map_map, Function.comp]
  have hget : ∀ k : Str, k ∉ csvHeaderFields text → ∀ line : Str,
      rowGet ((csvHeaderFields text).zip (line.splitOn commaChar)) k = [] := by
    intro k hk line
    simp [rowGet, lookup_zip_of_not_mem hk]
  refine ⟨hmain, by rw [hmain, List.length_map], ?_, ?_, ?_, ?_, ?_⟩
  all_goals
    intro hk p hp
    rw [hmain] at hp
    obtain ⟨line, hline, rfl⟩ := List.mem_map.mp hp
    simp [rowToPerson, hget _ hk line]

/-- Witness for C6 at a two-row payload with an empty line and a header
lacking the keyword columns. -/
theorem parser_row_mapping_witness :
    (recordParser (str "name,affiliation\nAna,EPFL\n\nBob,Eawag")).length =
      (csvDataLines (str "name,affiliation\nAna,EPFL\n\nBob,Eawag")).length ∧
    str "keyword3" ∉ csvHeaderFields (str "name,affiliation\nAna,EPFL\n\nBob,Eawag") ∧
    (∀ p ∈ recordParser (str "name,affiliation\nAna,EPFL\n\nBob,Eawag"), p.keyword3 = []) :=
  ⟨(parser_row_mapping (str "name,affiliation\nAna,EPFL\n\nBob,Eawag")).2.1,
   by decide,
   (parser_row_mapping (str "name,affiliation\nAna,EPFL\n\nBob,Eawag")).2.2.2.2.2.2
     (by decide)⟩

end SwissLakeDir
